import Mathlib

/-!
Verification of the deployment/certificate orchestration script
`src/cloudformation/deploy.py` of the crofton.cloud repository.

The script is embedded shallowly: each external AWS call site becomes an
event in a trace, and the responses the external services would give are
supplied up front by an environment record.  Polling loops, which the
source writes as `while True`, are embedded as fuel-indexed recursions over
a poll trace (one observed response per iteration); non-termination of a
loop is `none`/`running` at every fuel.
-/

/-- Boolean test that `haystack` starts with `needle` (as char lists). -/
def startsWithList : List Char → List Char → Bool
  | [], _ => true
  | _ :: _, [] => false
  | a :: as, b :: bs => a == b && startsWithList as bs

/-- Boolean test that `needle` occurs as a contiguous sublist of `haystack`. -/
def occursWithin (needle : List Char) : List Char → Bool
  | [] => startsWithList needle []
  | b :: bs => startsWithList needle (b :: bs) || occursWithin needle bs

/-- Python's `needle in haystack` substring test on strings. -/
def strContains (haystack needle : String) : Bool :=
  occursWithin needle.toList haystack.toList

/-- Python's `s.split(sep)` for a one-character separator, on char lists:
every occurrence of the separator starts a new group, and the result is
never empty. -/
def splitOnChar (sep : Char) : List Char → List (List Char)
  | [] => [[]]
  | c :: rest =>
    if c == sep then [] :: splitOnChar sep rest
    else
      match splitOnChar sep rest with
      | [] => [[c]]
      | g :: gs => (c :: g) :: gs

/-- Python's `s.split(sep)[-1]` for a one-character separator. -/
def lastSplitComponent (s : String) (sep : Char) : String :=
  ⟨(splitOnChar sep s.toList).getLastD []⟩

/-! ## Deployment reconciler (`deploy_stack`, deploy.py lines 44-86) -/

/-- Result of one external call as the collaborating service reports it:
success, a `botocore` `ClientError` carrying a message (the only kind the
script's `except client.exceptions.ClientError` clauses catch), or any
other exception (e.g. a `WaiterError`), which no handler in the script
catches. -/
inductive CallResult where
  | ok
  | clientError (msg : String)
  | otherError (msg : String)
  deriving DecidableEq, Repr

/-- Responses of the CloudFormation service to the five call sites a single
`deploy_stack` invocation can reach. -/
structure CfnEnv where
  describeResult : CallResult
  updateResult : CallResult
  updateWaitResult : CallResult
  createResult : CallResult
  createWaitResult : CallResult
  deriving DecidableEq, Repr

/-- A create-or-update request issued to CloudFormation, with the stack
name, template body, parameter list and capability declarations of the
call site. -/
inductive CfnEvent where
  | updateStack (stackName templateBody : String)
      (parameters : List (String × String)) (capabilities : List String)
  | createStack (stackName templateBody : String)
      (parameters : List (String × String)) (capabilities : List String)
  deriving DecidableEq, Repr

/-- Outcome of `deploy_stack`: normal return, or an uncaught exception
(`isClient` records whether it is a `ClientError`) carrying its message. -/
inductive DeployOutcome where
  | success
  | error (isClient : Bool) (msg : String)
  deriving DecidableEq, Repr

/-- The fixed capability declaration of both call sites (deploy.py lines
63 and 80). -/
def deployCapabilities : List String :=
  ["CAPABILITY_NAMED_IAM", "CAPABILITY_AUTO_EXPAND"]

/-- The inner `try` of `deploy_stack` (lines 58-72): issue the update
request, wait, and catch a `ClientError` whose message contains
"No updates are to be performed"; any other `ClientError` is re-raised
(and will reach the outer handler), a non-`ClientError` propagates. -/
def updateBranch (env : CfnEnv) (stackName templateBody : String)
    (parameters : List (String × String)) : DeployOutcome × List CfnEvent :=
  let evs := [CfnEvent.updateStack stackName templateBody parameters deployCapabilities]
  match env.updateResult with
  | .ok =>
    match env.updateWaitResult with
    | .ok => (.success, evs)
    | .clientError m =>
      if strContains m "No updates are to be performed" then (.success, evs)
      else (.error true m, evs)
    | .otherError m => (.error false m, evs)
  | .clientError m =>
    if strContains m "No updates are to be performed" then (.success, evs)
    else (.error true m, evs)
  | .otherError m => (.error false m, evs)

/-- The outer `except client.exceptions.ClientError` handler of
`deploy_stack` (lines 73-86): on a message containing "does not exist",
issue the create request and wait; otherwise re-raise.  Exceptions raised
inside this handler are not caught by anything. -/
def outerHandler (env : CfnEnv) (stackName templateBody : String)
    (parameters : List (String × String)) (msg : String)
    (evs : List CfnEvent) : DeployOutcome × List CfnEvent :=
  if strContains msg "does not exist" then
    let evs2 := evs ++ [CfnEvent.createStack stackName templateBody parameters deployCapabilities]
    match env.createResult with
    | .ok =>
      match env.createWaitResult with
      | .ok => (.success, evs2)
      | .clientError m => (.error true m, evs2)
      | .otherError m => (.error false m, evs2)
    | .clientError m => (.error true m, evs2)
    | .otherError m => (.error false m, evs2)
  else (.error true msg, evs)

/-- `deploy_stack` (lines 44-86).  The outer `try` encloses both the
describe call and the whole inner update `try`, so a `ClientError`
re-raised by the inner handler is caught by the outer handler too. -/
def deploy_stack (env : CfnEnv) (stackName templateBody : String)
    (parameters : List (String × String)) : DeployOutcome × List CfnEvent :=
  match env.describeResult with
  | .ok =>
    match updateBranch env stackName templateBody parameters with
    | (.success, evs) => (.success, evs)
    | (.error true m, evs) => outerHandler env stackName templateBody parameters m evs
    | (.error false m, evs) => (.error false m, evs)
  | .clientError m => outerHandler env stackName templateBody parameters m []
  | .otherError m => (.error false m, [])

/-- Is the event a create request? -/
def CfnEvent.isCreate : CfnEvent → Bool
  | .createStack _ _ _ _ => true
  | .updateStack _ _ _ _ => false

/-- Is the event an update request? -/
def CfnEvent.isUpdate : CfnEvent → Bool
  | .updateStack _ _ _ _ => true
  | .createStack _ _ _ _ => false

/-! ## Certificate acquirer (deploy.py lines 89-205) -/

/-- A DNS validation record as ACM reports it inside a
`DomainValidationOptions` entry: the `Name`/`Type`/`Value` keys. -/
structure ResourceRecord where
  name : String
  rtype : String
  value : String
  deriving DecidableEq, Repr

/-- One entry of `DomainValidationOptions`; the `ResourceRecord` key may be
absent while ACM is still generating the challenge. -/
structure DomainValidationOption where
  resourceRecord : Option ResourceRecord
  deriving DecidableEq, Repr

/-- A certificate as ACM describes it: `CertificateArn`, `DomainName`,
`Status`, `SubjectAlternativeNames`, `DomainValidationOptions`. -/
structure Certificate where
  certificateArn : String
  domainName : String
  status : String
  subjectAlternativeNames : List String
  domainValidationOptions : List DomainValidationOption
  deriving DecidableEq, Repr

/-- The ACM account state at the time of the initial, pre-loop calls. -/
structure AcmEnv where
  certificates : List Certificate
  deriving DecidableEq, Repr

/-- `list_certificates(CertificateStatuses=statuses)`: the certificates
whose status is in the requested filter, in account order. -/
def list_certificates (acm : AcmEnv) (statuses : List String) : List Certificate :=
  acm.certificates.filter (fun c => statuses.contains c.status)

/-- `describe_certificate(CertificateArn=arn)` against the static account
state; `none` models the `ResourceNotFoundException` of an unknown ARN. -/
def describe_certificate (acm : AcmEnv) (arn : String) : Option Certificate :=
  acm.certificates.find? (fun c => c.certificateArn == arn)

/-- `get_existing_certificate` (lines 89-119): scan the certificates listed
in statuses ISSUED / PENDING_VALIDATION; for the first one whose
`DomainName` equals the domain and whose alternative names (read from a
describe call) include `www.<domain>`, return its ARN — whatever its
status; otherwise return `None`. -/
def get_existing_certificate (domain : String) (acm : AcmEnv) : Option String :=
  ((list_certificates acm ["ISSUED", "PENDING_VALIDATION"]).find? (fun cert =>
    cert.domainName == domain &&
    (match describe_certificate acm cert.certificateArn with
     | some det => det.subjectAlternativeNames.contains ("www." ++ domain)
     | none => false))).map (fun c => c.certificateArn)

/-- A request issued by the acquirer to an external service: a new ACM
certificate request, or a Route 53 `change_resource_record_sets` UPSERT. -/
inductive AcmEvent where
  | requestCertificate (domain : String) (subjectAlternativeNames : List String)
      (validationMethod : String)
  | upsertRecord (hostedZoneId recordName recordType recordValue : String) (ttl : Nat)
  deriving DecidableEq, Repr

/-- Responses the acquirer's polling loops observe, one per iteration:
`challengePolls k` is the certificate detail returned by the `k`-th
describe call of the first loop (lines 157-170), `issuancePolls k` the
`Status` returned by the `k`-th describe of the second loop (lines
196-203).  `newArn` is the ARN `request_certificate` returns. -/
structure AcquireEnv where
  acm : AcmEnv
  newArn : String
  challengePolls : Nat → Certificate
  issuancePolls : Nat → String

/-- Outcome of `request_acm_certificate`: the returned ARN, a `KeyError`
from indexing a missing `ResourceRecord`, a `ResourceNotFoundException`
from describing an unknown ARN, or `running` when the given fuel did not
reach a loop exit (the source loop would still be polling). -/
inductive AcquireOutcome where
  | done (arn : String)
  | keyError
  | describeError
  | running
  deriving DecidableEq, Repr

/-- The availability gate of the first polling loop (line 167):
`options and "ResourceRecord" in options[0]` — the list is non-empty and
its first entry carries a resource record. -/
def challengeGate (options : List DomainValidationOption) : Bool :=
  match options with
  | [] => false
  | o :: _ => o.resourceRecord.isSome

/-- Exit value of the first polling loop. -/
inductive ChallengeWait where
  | issued
  | ready (options : List DomainValidationOption)
  | stillPolling
  deriving DecidableEq, Repr

/-- The first polling loop (lines 157-170), fuel-indexed: describe the
certificate; if its status is ISSUED return it; if the gate passes, break
carrying the options; otherwise sleep and poll again. -/
def awaitChallenges (polls : Nat → Certificate) : Nat → Nat → ChallengeWait
  | 0, _ => .stillPolling
  | fuel + 1, k =>
    let det := polls k
    if det.status == "ISSUED" then .issued
    else if challengeGate det.domainValidationOptions then .ready det.domainValidationOptions
    else awaitChallenges polls fuel (k + 1)

/-- Result of the publication loop: the UPSERT requests issued, flagged
with whether the loop finished or died on a `KeyError` partway. -/
inductive PublishResult where
  | ok (events : List AcmEvent)
  | keyError (events : List AcmEvent)
  deriving DecidableEq, Repr

/-- The publication loop (lines 172-193): for each option in order, index
`option["ResourceRecord"]` — a `KeyError` if absent — and issue one UPSERT
of the record's name/type/value with TTL 300 into the zone. -/
def publishRecords (zoneId : String) : List DomainValidationOption → PublishResult
  | [] => .ok []
  | o :: rest =>
    match o.resourceRecord with
    | none => .keyError []
    | some r =>
      let ev := AcmEvent.upsertRecord zoneId r.name r.rtype r.value 300
      match publishRecords zoneId rest with
      | .ok evs => .ok (ev :: evs)
      | .keyError evs => .keyError (ev :: evs)

/-- The second polling loop (lines 196-203), fuel-indexed: describe the
certificate and break only when its status is ISSUED; every other status
just logs and sleeps. -/
def awaitIssuance (polls : Nat → String) : Nat → Nat → Option Unit
  | 0, _ => none
  | fuel + 1, k =>
    if polls k == "ISSUED" then some ()
    else awaitIssuance polls fuel (k + 1)

/-- The loop of lines 196-203 terminates on some fuel. -/
def awaitIssuanceTerminates (polls : Nat → String) : Prop :=
  ∃ fuel, (awaitIssuance polls fuel 0).isSome

/-- The validation phase of `request_acm_certificate` (lines 156-205),
entered with the ARN to validate already in hand. -/
def acquireLoops (zoneId : String) (env : AcquireEnv) (arn : String)
    (fuel : Nat) (events : List AcmEvent) : AcquireOutcome × List AcmEvent :=
  match awaitChallenges env.challengePolls fuel 0 with
  | .issued => (.done arn, events)
  | .stillPolling => (.running, events)
  | .ready options =>
    match publishRecords zoneId options with
    | .keyError evs => (.keyError, events ++ evs)
    | .ok evs =>
      match awaitIssuance env.issuancePolls fuel 0 with
      | some _ => (.done arn, events ++ evs)
      | none => (.running, events ++ evs)

/-- `request_acm_certificate` (lines 122-205): reuse an existing
certificate when `get_existing_certificate` finds one — returning it at
once if a fresh describe says ISSUED — otherwise request a new one with
the single alternative name `www.<domain>` and DNS validation; then run
the challenge wait, publication and issuance wait phases. -/
def request_acm_certificate (domain zoneId : String) (env : AcquireEnv)
    (fuel : Nat) : AcquireOutcome × List AcmEvent :=
  match get_existing_certificate domain env.acm with
  | some existingArn =>
    match describe_certificate env.acm existingArn with
    | none => (.describeError, [])
    | some det =>
      if det.status == "ISSUED" then (.done existingArn, [])
      else acquireLoops zoneId env existingArn fuel []
  | none =>
    acquireLoops zoneId env env.newArn fuel
      [AcmEvent.requestCertificate domain ["www." ++ domain] "DNS"]

/-- Is the event an UPSERT of a DNS record? -/
def AcmEvent.isUpsert : AcmEvent → Bool
  | .upsertRecord _ _ _ _ _ => true
  | .requestCertificate _ _ _ => false

/-- Is the event a new-certificate request? -/
def AcmEvent.isRequest : AcmEvent → Bool
  | .requestCertificate _ _ _ => true
  | .upsertRecord _ _ _ _ _ => false

/-! ## Zone resolution and the orchestration driver (`main`, lines 243-346) -/

/-- A hosted zone as `list_hosted_zones_by_name` returns it: the `Name`
and `Id` keys. -/
structure HostedZone where
  zoneName : String
  zoneId : String
  deriving DecidableEq, Repr

/-- The zone-resolution step of `main` (lines 297-303): take the response
of `list_hosted_zones_by_name(DNSName=domain, MaxItems="1")`; fail
(`ValueError`) when the list is empty or the first zone's name does not
contain the domain as a substring; otherwise return the first zone's `Id`
after `split("/")[-1]`. -/
def resolveZone (domain : String) (hostedZones : List HostedZone) : Option String :=
  match hostedZones with
  | [] => none
  | z :: _ =>
    if strContains z.zoneName domain then some (lastSplitComponent z.zoneId (Char.ofNat 47))
    else none

/-- An externally visible request issued during one `main` run. -/
inductive RunEvent where
  | acm (e : AcmEvent)
  | validateTemplate (templateBody : String)
  | cfn (e : CfnEvent)
  | uploadFile (bucket objectKey contentType : String)
  deriving DecidableEq, Repr

/-- Command-line arguments of the script (lines 247-283). -/
structure Args where
  domain : String
  pfx : String
  bucketLogsLifecycle : String
  bucketTransitionLifecycle : String
  validate : Bool
  deriving DecidableEq, Repr

/-- The external world one `main` run interacts with: the hosted-zone
lookup response, the ACM/Route 53 behaviour, the CloudFormation
behaviour, and the template file's contents. -/
structure MainEnv where
  hostedZones : List HostedZone
  acquire : AcquireEnv
  cfn : CfnEnv
  templateBody : String

/-- Outcome of one `main` run. -/
inductive MainOutcome where
  | ok
  | zoneNotFound (msg : String)
  | validated
  | deployError (isClient : Bool) (msg : String)
  | acmKeyError
  | acmDescribeError
  | stillPolling
  deriving DecidableEq, Repr

/-- `main` (lines 243-346; Lean reserves the name `main`, hence `mainRun`) after argument parsing and client setup:
resolve the hosted zone, acquire the certificate, read the template, and
then either validate only (when `--validate` was passed) or deploy the
stack and upload the two HTML artifacts. -/
def mainRun (args : Args) (env : MainEnv) (fuel : Nat) : MainOutcome × List RunEvent :=
  match resolveZone args.domain env.hostedZones with
  | none => (.zoneNotFound ("No hosted zone found for domain " ++ args.domain), [])
  | some hostedZoneId =>
    match request_acm_certificate args.domain hostedZoneId env.acquire fuel with
    | (.keyError, acqEvs) => (.acmKeyError, acqEvs.map RunEvent.acm)
    | (.describeError, acqEvs) => (.acmDescribeError, acqEvs.map RunEvent.acm)
    | (.running, acqEvs) => (.stillPolling, acqEvs.map RunEvent.acm)
    | (.done certArn, acqEvs) =>
      let evs := acqEvs.map RunEvent.acm
      if args.validate then
        (.validated, evs ++ [RunEvent.validateTemplate env.templateBody])
      else
        let stackName := args.pfx ++ "-website-framework"
        let parameters :=
          [("ACMCertificateArn", certArn),
           ("DomainName", args.domain),
           ("ProjectPrefix", args.pfx),
           ("BucketLogsLifeCycle", args.bucketLogsLifecycle),
           ("BucketTransitionLifeCycle", args.bucketTransitionLifecycle),
           ("HostedZoneId", hostedZoneId)]
        match deploy_stack env.cfn stackName env.templateBody parameters with
        | (.success, dEvs) =>
          (.ok, evs ++ dEvs.map RunEvent.cfn ++
            [RunEvent.uploadFile args.domain "index.html" "text/html",
             RunEvent.uploadFile args.domain "resume.html" "text/html"])
        | (.error b m, dEvs) => (.deployError b m, evs ++ dEvs.map RunEvent.cfn)

/-- Is the event a stack create or update request? -/
def RunEvent.isStackMutation : RunEvent → Bool
  | .cfn e => e.isCreate || e.isUpdate
  | _ => false

/-- Is the event a template-validation request? -/
def RunEvent.isValidation : RunEvent → Bool
  | .validateTemplate _ => true
  | _ => false

/-- Is the event an artifact upload? -/
def RunEvent.isUpload : RunEvent → Bool
  | .uploadFile _ _ _ => true
  | _ => false

/-! ## Concrete environments used as witnesses and counterexamples -/

/-- A CloudFormation behaviour where the stack exists and the update is
rejected as a no-op. -/
def envC1 : CfnEnv :=
  { describeResult := .ok
    updateResult := .clientError
      "An error occurred (ValidationError) when calling the UpdateStack operation: No updates are to be performed."
    updateWaitResult := .ok
    createResult := .ok
    createWaitResult := .ok }

/-- A CloudFormation behaviour where the stack exists and the update is
rejected for a non-drift reason whose message happens to contain the words
"does not exist". -/
def envC6 : CfnEnv :=
  { describeResult := .ok
    updateResult := .clientError
      "An error occurred (ValidationError) when calling the UpdateStack operation: Export websiteBucket does not exist."
    updateWaitResult := .ok
    createResult := .ok
    createWaitResult := .ok }

/-- A CloudFormation behaviour where the describe says the stack is absent. -/
def envAbsent : CfnEnv :=
  { describeResult := .clientError
      "An error occurred (ValidationError): Stack with id proj-website-framework does not exist"
    updateResult := .ok
    updateWaitResult := .ok
    createResult := .ok
    createWaitResult := .ok }

/-- A CloudFormation behaviour where the describe fails for a reason other
than absence. -/
def envDescribeDenied : CfnEnv :=
  { describeResult := .clientError
      "An error occurred (AccessDenied) when calling the DescribeStacks operation: not authorized"
    updateResult := .ok
    updateWaitResult := .ok
    createResult := .ok
    createWaitResult := .ok }

/-! ## Claims about the deployment reconciler -/

/-- C1: for an existing stack whose update request is rejected with a
message containing "No updates are to be performed", `deploy_stack`
returns success, raises nothing, and the trace is exactly the one rejected
update request — no create and no further update is issued. -/
theorem claim_C1_noop_update_is_success (env : CfnEnv)
    (stackName templateBody : String) (parameters : List (String × String))
    (msg : String)
    (hdesc : env.describeResult = .ok)
    (hupd : env.updateResult = .clientError msg)
    (hnoop : strContains msg "No updates are to be performed" = true) :
    deploy_stack env stackName templateBody parameters =
      (.success,
       [CfnEvent.updateStack stackName templateBody parameters deployCapabilities]) := by
  simp [deploy_stack, updateBranch, hdesc, hupd, hnoop]

/-- Witness for C1 at a concrete environment. -/
theorem claim_C1_noop_update_is_success_witness :
    deploy_stack envC1 "proj-website-framework" "tmpl" [] =
      (.success,
       [CfnEvent.updateStack "proj-website-framework" "tmpl" [] deployCapabilities]) :=
  claim_C1_noop_update_is_success envC1 "proj-website-framework" "tmpl" [] _
    rfl rfl (by decide)

/-- C3: when the describe query fails with a `ClientError`, the
"does not exist" signal alone decides the path — with it, the trace is
exactly one create request (and hence zero update requests); without it,
the error propagates unchanged and no request at all is issued. -/
theorem claim_C3_absent_stack_created (env : CfnEnv)
    (stackName templateBody : String) (parameters : List (String × String))
    (msg : String)
    (hdesc : env.describeResult = .clientError msg) :
    (strContains msg "does not exist" = true →
      (deploy_stack env stackName templateBody parameters).2 =
        [CfnEvent.createStack stackName templateBody parameters deployCapabilities]) ∧
    (strContains msg "does not exist" = false →
      deploy_stack env stackName templateBody parameters = (.error true msg, [])) := by
  constructor
  · intro h
    simp only [deploy_stack, outerHandler, hdesc, h, if_true]
    cases env.createResult <;> cases env.createWaitResult <;> simp
  · intro h
    simp [deploy_stack, outerHandler, hdesc, h]

/-- Witness for C3: both branches at concrete environments. -/
theorem claim_C3_absent_stack_created_witness :
    (deploy_stack envAbsent "proj-website-framework" "tmpl" []).2 =
      [CfnEvent.createStack "proj-website-framework" "tmpl" [] deployCapabilities] ∧
    deploy_stack envDescribeDenied "proj-website-framework" "tmpl" [] =
      (.error true
        "An error occurred (AccessDenied) when calling the DescribeStacks operation: not authorized",
       []) :=
  ⟨(claim_C3_absent_stack_created envAbsent "proj-website-framework" "tmpl" [] _
      rfl).1 (by decide),
   (claim_C3_absent_stack_created envDescribeDenied "proj-website-framework" "tmpl" [] _
      rfl).2 (by decide)⟩

/-- C6 counterexample: the claim says a non-no-drift update rejection
always propagates and never issues a create request — but when the
rejection message happens to contain "does not exist", the re-raised
`ClientError` is caught by the outer handler, which issues a create
request, and the run even reports success. -/
theorem claim_C6_counterexample :
    strContains
      "An error occurred (ValidationError) when calling the UpdateStack operation: Export websiteBucket does not exist."
      "No updates are to be performed" = false ∧
    (deploy_stack envC6 "proj-website-framework" "tmpl" []).1 = .success ∧
    ((deploy_stack envC6 "proj-website-framework" "tmpl" []).2.countP
      (fun e => e.isCreate)) = 1 := by
  exact ⟨by decide, by decide, by decide⟩

/-- C6 amended: an update rejection that is neither the no-drift message
nor contains "does not exist" propagates as the original `ClientError`
with its message preserved, and the trace holds no create request. -/
theorem claim_C6_other_update_rejection_propagates (env : CfnEnv)
    (stackName templateBody : String) (parameters : List (String × String))
    (msg : String)
    (hdesc : env.describeResult = .ok)
    (hupd : env.updateResult = .clientError msg)
    (hnoop : strContains msg "No updates are to be performed" = false)
    (hnde : strContains msg "does not exist" = false) :
    deploy_stack env stackName templateBody parameters =
      (.error true msg,
       [CfnEvent.updateStack stackName templateBody parameters deployCapabilities]) := by
  simp [deploy_stack, updateBranch, outerHandler, hdesc, hupd, hnoop, hnde]

/-- Witness for the amended C6 at a concrete environment. -/
theorem claim_C6_other_update_rejection_propagates_witness :
    deploy_stack
      { describeResult := .ok
        updateResult := .clientError "An error occurred (AccessDenied): not authorized"
        updateWaitResult := .ok
        createResult := .ok
        createWaitResult := .ok } "proj-website-framework" "tmpl" [] =
      (.error true "An error occurred (AccessDenied): not authorized",
       [CfnEvent.updateStack "proj-website-framework" "tmpl" [] deployCapabilities]) :=
  claim_C6_other_update_rejection_propagates _ "proj-website-framework" "tmpl" [] _
    rfl rfl (by decide) (by decide)

/-! ## Claim C4: zone resolution -/

/-- C4: `resolveZone` fails if and only if the lookup result set is empty
or the first candidate's name does not contain the requested domain as a
substring; on success it returns the first candidate's identifier with
everything up to the last "/" stripped. -/
theorem claim_C4_zone_resolution_iff (domain : String) (zones : List HostedZone) :
    (resolveZone domain zones = none ↔
      zones = [] ∨
      ∃ z rest, zones = z :: rest ∧ strContains z.zoneName domain = false) ∧
    (∀ z rest, zones = z :: rest → strContains z.zoneName domain = true →
      resolveZone domain zones = some (lastSplitComponent z.zoneId (Char.ofNat 47))) := by
  constructor
  · cases zones with
    | nil => simp [resolveZone]
    | cons z rest =>
      by_cases h : strContains z.zoneName domain = true
      · simp [resolveZone, h]
      · simp only [Bool.not_eq_true] at h
        simp [resolveZone, h]
  · intro z rest hz hc
    subst hz
    simp [resolveZone, hc]

/-- Witness for C4: both failure shapes and a success at concrete inputs. -/
theorem claim_C4_zone_resolution_iff_witness :
    resolveZone "example.com" [] = none ∧
    resolveZone "example.com"
      [{ zoneName := "other.org.", zoneId := "/hostedzone/Z9" }] = none ∧
    resolveZone "example.com"
      [{ zoneName := "example.com.", zoneId := "/hostedzone/Z123" }] = some "Z123" :=
  ⟨(claim_C4_zone_resolution_iff "example.com" []).1.mpr (Or.inl rfl),
   (claim_C4_zone_resolution_iff "example.com"
      [{ zoneName := "other.org.", zoneId := "/hostedzone/Z9" }]).1.mpr
     (Or.inr ⟨_, [], rfl, by decide⟩),
   ((claim_C4_zone_resolution_iff "example.com"
      [{ zoneName := "example.com.", zoneId := "/hostedzone/Z123" }]).2 _ [] rfl
     (by decide)).trans (by decide)⟩

/-! ## Claim C2: reuse of an existing issued certificate -/

/-- A pending certificate for `example.com` that covers the www variant;
its single validation challenge is already available. -/
def certPending : Certificate :=
  { certificateArn := "arn:aws:acm:us-east-1:1:certificate/pending"
    domainName := "example.com"
    status := "PENDING_VALIDATION"
    subjectAlternativeNames := ["example.com", "www.example.com"]
    domainValidationOptions :=
      [{ resourceRecord := some
          { name := "_p.example.com.", rtype := "CNAME", value := "_v.acm-validations.aws." } }] }

/-- An issued certificate for `example.com` that covers the www variant. -/
def certIssued : Certificate :=
  { certificateArn := "arn:aws:acm:us-east-1:1:certificate/issued"
    domainName := "example.com"
    status := "ISSUED"
    subjectAlternativeNames := ["example.com", "www.example.com"]
    domainValidationOptions := [] }

/-- An account holding the pending certificate ahead of the issued one in
listing order; polls report the pending certificate, then issuance. -/
def envC2 : AcquireEnv :=
  { acm := { certificates := [certPending, certIssued] }
    newArn := "arn:aws:acm:us-east-1:1:certificate/new"
    challengePolls := fun _ => certPending
    issuancePolls := fun _ => "ISSUED" }

/-- C2 counterexample: an ISSUED certificate matching the domain and its
www variant exists, yet the acquirer — which takes the FIRST match of the
listing, here a PENDING_VALIDATION one — returns a different handle and
publishes a DNS record on the way. -/
theorem claim_C2_counterexample :
    certIssued ∈ envC2.acm.certificates ∧
    certIssued.domainName = "example.com" ∧
    certIssued.status = "ISSUED" ∧
    "www.example.com" ∈ certIssued.subjectAlternativeNames ∧
    (request_acm_certificate "example.com" "Z123" envC2 3).1 ≠
      AcquireOutcome.done certIssued.certificateArn ∧
    ((request_acm_certificate "example.com" "Z123" envC2 3).2.countP
      (fun e => e.isUpsert)) = 1 := by
  decide

/-- C2 amended: when the FIRST certificate that `get_existing_certificate`
selects (first of the ISSUED/PENDING_VALIDATION listing with the domain as
primary name and the www variant among its alternative names) has status
ISSUED, the acquirer returns exactly its handle and the trace is empty: no
new certificate request and no DNS record. -/
theorem claim_C2_first_match_issued_short_circuit (domain zoneId : String)
    (env : AcquireEnv) (fuel : Nat) (c : Certificate)
    (hfound : get_existing_certificate domain env.acm = some c.certificateArn)
    (hdesc : describe_certificate env.acm c.certificateArn = some c)
    (hissued : c.status = "ISSUED") :
    request_acm_certificate domain zoneId env fuel = (.done c.certificateArn, []) := by
  simp [request_acm_certificate, hfound, hdesc, hissued]

/-- An account whose only certificate is the issued matching one. -/
def envC2w : AcquireEnv :=
  { acm := { certificates := [certIssued] }
    newArn := "arn:aws:acm:us-east-1:1:certificate/new"
    challengePolls := fun _ => certIssued
    issuancePolls := fun _ => "ISSUED" }

/-- Witness for the amended C2 at a concrete account. -/
theorem claim_C2_first_match_issued_short_circuit_witness :
    request_acm_certificate "example.com" "Z123" envC2w 0 =
      (.done certIssued.certificateArn, []) :=
  claim_C2_first_match_issued_short_circuit "example.com" "Z123" envC2w 0
    certIssued (by decide) (by decide) rfl

/-! ## Claim C5: the issuance polling loop -/

/-- Exit characterisation of the final polling loop: starting at poll `k`
with the given fuel, the loop has returned iff some poll within the fuel
window reported ISSUED. -/
theorem awaitIssuance_isSome_iff (polls : Nat → String) (fuel k : Nat) :
    (awaitIssuance polls fuel k).isSome = true ↔
      ∃ j, j < fuel ∧ polls (k + j) = "ISSUED" := by
  induction fuel generalizing k with
  | zero => simp [awaitIssuance]
  | succ n ih =>
    by_cases h : polls k = "ISSUED"
    · constructor
      · intro _
        exact ⟨0, Nat.succ_pos n, by simpa using h⟩
      · intro _
        simp [awaitIssuance, h]
    · have hb : (polls k == "ISSUED") = false := by
        simp [h]
      constructor
      · intro hs
        rw [awaitIssuance, hb] at hs
        simp only [Bool.false_eq_true, if_false] at hs
        obtain ⟨j, hj, hp⟩ := (ih (k + 1)).mp hs
        exact ⟨j + 1, by omega, by
          have : k + 1 + j = k + (j + 1) := by omega
          rw [← this]; exact hp⟩
      · rintro ⟨j, hj, hp⟩
        cases j with
        | zero => exact absurd (by simpa using hp) h
        | succ j =>
          rw [awaitIssuance, hb]
          simp only [Bool.false_eq_true, if_false]
          exact (ih (k + 1)).mpr ⟨j, by omega, by
            have : k + 1 + j = k + (j + 1) := by omega
            rw [this]; exact hp⟩

/-- C5 counterexample: under a certificate authority that forever reports
the terminal failure status VALIDATION_TIMED_OUT, the issuance loop of
lines 196-203 never terminates — in particular the acquirer does not fail
with any `CertificateValidationFailed` error, because the loop inspects
nothing but equality with ISSUED. -/
theorem claim_C5_counterexample :
    ¬ awaitIssuanceTerminates (fun _ => "VALIDATION_TIMED_OUT") := by
  rintro ⟨fuel, h⟩
  obtain ⟨j, _, hp⟩ := (awaitIssuance_isSome_iff _ fuel 0).mp h
  exact absurd hp (by decide)

/-- C5 amended: the final polling loop terminates exactly when some poll
reports status ISSUED; any terminal failure status leaves it polling
forever, and no failure is ever raised from it. -/
theorem claim_C5_issuance_loop_exits_only_on_issued (polls : Nat → String) :
    awaitIssuanceTerminates polls ↔ ∃ i, polls i = "ISSUED" := by
  unfold awaitIssuanceTerminates
  constructor
  · rintro ⟨fuel, h⟩
    obtain ⟨j, _, hp⟩ := (awaitIssuance_isSome_iff polls fuel 0).mp h
    exact ⟨j, by simpa using hp⟩
  · rintro ⟨i, hi⟩
    exact ⟨i + 1, (awaitIssuance_isSome_iff polls (i + 1) 0).mpr
      ⟨i, Nat.lt_succ_self i, by simpa using hi⟩⟩

/-! ## Claims C7 and C9: publication of validation records -/

/-- The UPSERT request a single challenge gives rise to. -/
def upsertOfRecord (zoneId : String) (r : ResourceRecord) : AcmEvent :=
  .upsertRecord zoneId r.name r.rtype r.value 300

/-- C7: when every validation option carries its resource record, the
publication loop succeeds and issues exactly one UPSERT per challenge, in
order, each with that challenge's name, type and value and TTL 300 in the
resolved zone — in particular exactly as many UPSERTs as challenges. -/
theorem claim_C7_one_upsert_per_challenge (zoneId : String)
    (options : List DomainValidationOption)
    (h : ∀ o ∈ options, o.resourceRecord.isSome = true) :
    publishRecords zoneId options =
      .ok (options.filterMap (fun o => o.resourceRecord.map (upsertOfRecord zoneId))) ∧
    (options.filterMap (fun o => o.resourceRecord.map (upsertOfRecord zoneId))).length =
      options.length := by
  induction options with
  | nil => simp [publishRecords]
  | cons o rest ih =>
    obtain ⟨r, hr⟩ := Option.isSome_iff_exists.mp (h o (by simp))
    have hrest := ih (fun x hx => h x (by simp [hx]))
    refine ⟨?_, ?_⟩
    · simp [publishRecords, hr, hrest.1, upsertOfRecord]
    · simp [hr, hrest.2, upsertOfRecord]

/-- A validation option whose challenge is available. -/
def optA : DomainValidationOption :=
  { resourceRecord := some
      { name := "_a.example.com.", rtype := "CNAME", value := "valueA" } }

/-- A second available validation option. -/
def optB : DomainValidationOption :=
  { resourceRecord := some
      { name := "_b.www.example.com.", rtype := "CNAME", value := "valueB" } }

/-- Witness for C7: two challenges give exactly the two UPSERTs, TTL 300. -/
theorem claim_C7_one_upsert_per_challenge_witness :
    publishRecords "Z123" [optA, optB] =
      .ok [AcmEvent.upsertRecord "Z123" "_a.example.com." "CNAME" "valueA" 300,
           AcmEvent.upsertRecord "Z123" "_b.www.example.com." "CNAME" "valueB" 300] ∧
    ([optA, optB].filterMap
      (fun o => o.resourceRecord.map (upsertOfRecord "Z123"))).length = 2 := by
  have h := claim_C7_one_upsert_per_challenge "Z123" [optA, optB] (by decide)
  exact ⟨h.1.trans (by decide), h.2.trans (by decide)⟩

/-- A validation option whose challenge is not yet available. -/
def optNoRecord : DomainValidationOption := { resourceRecord := none }

/-- A pending certificate whose first option is ready but whose second
still lacks its resource record. -/
def certHalfReady : Certificate :=
  { certificateArn := "arn:aws:acm:us-east-1:1:certificate/half"
    domainName := "example.com"
    status := "PENDING_VALIDATION"
    subjectAlternativeNames := ["example.com", "www.example.com"]
    domainValidationOptions := [optA, optNoRecord] }

/-- C9: the availability gate looks only at the first option — it passes
(and the challenge-wait loop exits on its first poll) on a detail whose
second option lacks its resource record — and the publication loop, which
indexes every option's record unguarded, then dies with a `KeyError`
after the first UPSERT instead of waiting further. -/
theorem claim_C9_gate_checks_only_first_option :
    challengeGate certHalfReady.domainValidationOptions = true ∧
    awaitChallenges (fun _ => certHalfReady) 1 0 =
      .ready [optA, optNoRecord] ∧
    publishRecords "Z123" [optA, optNoRecord] =
      .keyError [AcmEvent.upsertRecord "Z123" "_a.example.com." "CNAME" "valueA" 300] := by
  decide

/-! ## Claims C8 and C10: the validate-only mode of the driver -/

/-- Counting a predicate that is false on every acquirer event over an
acquirer-sourced trace segment gives zero. -/
theorem countP_map_acm (p : RunEvent → Bool)
    (h : ∀ a, p (RunEvent.acm a) = false) (l : List AcmEvent) :
    (l.map RunEvent.acm).countP p = 0 := by
  induction l with
  | nil => rfl
  | cons a l ih => simp [List.countP_cons, h, ih]

/-- Counting a predicate that is false on every CloudFormation event over
a reconciler-sourced trace segment gives zero. -/
theorem countP_map_cfn (p : RunEvent → Bool)
    (h : ∀ a, p (RunEvent.cfn a) = false) (l : List CfnEvent) :
    (l.map RunEvent.cfn).countP p = 0 := by
  induction l with
  | nil => rfl
  | cons a l ih => simp [List.countP_cons, h, ih]

/-- C8: with the validate-only flag set the run's trace holds no stack
create or update request, whatever the environment; and no single run's
trace holds both a template-validation request and a stack mutation. -/
theorem claim_C8_validate_only_never_mutates (args : Args) (env : MainEnv)
    (fuel : Nat) :
    (args.validate = true →
      ((mainRun args env fuel).2.countP (fun e => e.isStackMutation)) = 0) ∧
    (((mainRun args env fuel).2.countP (fun e => e.isValidation)) = 0 ∨
     ((mainRun args env fuel).2.countP (fun e => e.isStackMutation)) = 0) := by
  have hacmM : ∀ l : List AcmEvent,
      (l.map RunEvent.acm).countP (fun e => e.isStackMutation) = 0 :=
    countP_map_acm _ (fun _ => rfl)
  have hacmV : ∀ l : List AcmEvent,
      (l.map RunEvent.acm).countP (fun e => e.isValidation) = 0 :=
    countP_map_acm _ (fun _ => rfl)
  have hcfnV : ∀ l : List CfnEvent,
      (l.map RunEvent.cfn).countP (fun e => e.isValidation) = 0 :=
    countP_map_cfn _ (fun _ => rfl)
  simp only [mainRun]
  split
  · simp
  · split
    · exact ⟨fun _ => hacmM _, Or.inl (hacmV _)⟩
    · exact ⟨fun _ => hacmM _, Or.inl (hacmV _)⟩
    · exact ⟨fun _ => hacmM _, Or.inl (hacmV _)⟩
    · split
      · constructor
        · intro _
          simp [List.countP_append, hacmM, List.countP_cons, RunEvent.isStackMutation]
        · exact Or.inr (by
            simp [List.countP_append, hacmM, List.countP_cons, RunEvent.isStackMutation])
      · split
        · constructor
          · intro h
            simp_all
          · exact Or.inl (by
              simp [List.countP_append, hacmV, hcfnV, List.countP_cons,
                RunEvent.isValidation])
        · constructor
          · intro h
            simp_all
          · exact Or.inl (by
              simp [List.countP_append, hacmV, hcfnV, List.countP_cons,
                RunEvent.isValidation])

/-- A concrete validate-only invocation's arguments. -/
def argsValidateOnly : Args :=
  { domain := "example.com"
    pfx := "proj"
    bucketLogsLifecycle := "365"
    bucketTransitionLifecycle := "30"
    validate := true }

/-- A fresh pending certificate, as the run would see its own new request:
both challenges already available. -/
def certFresh : Certificate :=
  { certificateArn := "arn:aws:acm:us-east-1:1:certificate/new"
    domainName := "example.com"
    status := "PENDING_VALIDATION"
    subjectAlternativeNames := ["example.com", "www.example.com"]
    domainValidationOptions := [optA, optB] }

/-- A world with a matching hosted zone and no existing certificate. -/
def envC10 : MainEnv :=
  { hostedZones := [{ zoneName := "example.com.", zoneId := "/hostedzone/Z123" }]
    acquire :=
      { acm := { certificates := [] }
        newArn := "arn:aws:acm:us-east-1:1:certificate/new"
        challengePolls := fun _ => certFresh
        issuancePolls := fun _ => "ISSUED" }
    cfn := envC1
    templateBody := "tmpl" }

/-- Witness for C8 at the concrete validate-only invocation. -/
theorem claim_C8_validate_only_never_mutates_witness :
    ((mainRun argsValidateOnly envC10 3).2.countP
      (fun e => e.isStackMutation)) = 0 ∧
    (((mainRun argsValidateOnly envC10 3).2.countP
      (fun e => e.isValidation)) = 0 ∨
     ((mainRun argsValidateOnly envC10 3).2.countP
      (fun e => e.isStackMutation)) = 0) :=
  ⟨(claim_C8_validate_only_never_mutates argsValidateOnly envC10 3).1 rfl,
   (claim_C8_validate_only_never_mutates argsValidateOnly envC10 3).2⟩

/-- C10: a validate-only run still resolves the zone and acquires the
certificate in full before the flag is consulted — on a world with no
existing certificate it issues one new certificate request and two DNS
UPSERTs — while the deployment and artifact stages are skipped. -/
theorem claim_C10_validate_only_still_acquires :
    (mainRun argsValidateOnly envC10 3).1 = .validated ∧
    ((mainRun argsValidateOnly envC10 3).2.countP
      (fun e => match e with | .acm a => a.isRequest | _ => false)) = 1 ∧
    ((mainRun argsValidateOnly envC10 3).2.countP
      (fun e => match e with | .acm a => a.isUpsert | _ => false)) = 2 ∧
    ((mainRun argsValidateOnly envC10 3).2.countP
      (fun e => e.isValidation)) = 1 ∧
    ((mainRun argsValidateOnly envC10 3).2.countP
      (fun e => e.isStackMutation)) = 0 ∧
    ((mainRun argsValidateOnly envC10 3).2.countP
      (fun e => e.isUpload)) = 0 := by
  decide
